import Mathlib

/-!
Shallow embedding of the metrics-calculation core of the DORA metrics dashboard
(Linear integration).  Timestamps are modelled as natural numbers of UTC
milliseconds since the Unix epoch; JS floating-point arithmetic is modelled
exactly over `ℚ` (calendar and calculator code) and `ℝ` (statistics module).
-/

/-- Milliseconds per hour (`1000 * 60 * 60` in the JS source). -/
def msPerHour : ℕ := 3600000

/-- Milliseconds per calendar day. -/
def msPerDay : ℕ := 86400000

/-- Calendar-day index (days since the Unix epoch) of a UTC timestamp in ms. -/
def dayIndex (t : ℕ) : ℕ := t / msPerDay

/-- JS `Date.getDay()` for a calendar-day index: 0 = Sunday .. 6 = Saturday.
The epoch day 1970-01-01 was a Thursday (= 4). -/
def dayOfWeek (d : ℕ) : ℕ := (d + 4) % 7

/-- Weekend check of `calculateBusinessHours` in `src/lib/timeUtils.ts`:
a day counts iff it is neither Sunday (0) nor Saturday (6). -/
def isBusinessDay (d : ℕ) : Bool := dayOfWeek d != 0 && dayOfWeek d != 6

/-- Contribution, in ms, of calendar day `d` to the business time between
`start` and `stop`: the overlap of `[start, stop]` with the 9:00-17:00 window
of day `d`, and 0 on weekends (`timeUtils.ts` lines 17-38).  Truncated `ℕ`
subtraction encodes the `periodStart < periodEnd` guard of the source. -/
def dayBusinessMs (start stop d : ℕ) : ℕ :=
  if isBusinessDay d then
    min stop (d * msPerDay + 17 * msPerHour) - max start (d * msPerDay + 9 * msPerHour)
  else 0

/-- `calculateBusinessHours` from `src/lib/timeUtils.ts`: business hours
between two UTC timestamps (ms), counting 9 AM - 5 PM on Monday-Friday.  The
day-by-day `while` loop of the source visits exactly the calendar days
`dayIndex start .. dayIndex (stop - 1)` when `start < stop`, and the loop body
adds the day's overlap in hours. -/
def calculateBusinessHours (start stop : ℕ) : ℚ :=
  if start < stop then
    (((List.range (dayIndex (stop - 1) + 1 - dayIndex start)).map
        (fun i => dayBusinessMs start stop (dayIndex start + i))).sum : ℚ) / (msPerHour : ℚ)
  else 0

lemma fri_lt (d : ℕ) :
    d * msPerDay + 16 * msPerHour < (d + 3) * msPerDay + 11 * msPerHour := by
  simp only [msPerDay, msPerHour]; omega

lemma fri_start (d : ℕ) : dayIndex (d * msPerDay + 16 * msPerHour) = d := by
  simp only [dayIndex, msPerDay, msPerHour]; omega

lemma fri_stop (d : ℕ) :
    dayIndex ((d + 3) * msPerDay + 11 * msPerHour - 1) = d + 3 := by
  simp only [dayIndex, msPerDay, msPerHour]; omega

lemma fri_day0 (d : ℕ) (h : (d + 4) % 7 = 5) : isBusinessDay (d + 0) = true := by
  simp only [isBusinessDay, dayOfWeek, Bool.and_eq_true, bne_iff_ne, ne_eq]; omega

lemma fri_day1 (d : ℕ) (h : (d + 4) % 7 = 5) : isBusinessDay (d + 1) = false := by
  simp only [isBusinessDay, dayOfWeek, Bool.and_eq_false_iff, bne_eq_false_iff_eq]; omega

lemma fri_day2 (d : ℕ) (h : (d + 4) % 7 = 5) : isBusinessDay (d + 2) = false := by
  simp only [isBusinessDay, dayOfWeek, Bool.and_eq_false_iff, bne_eq_false_iff_eq]; omega

lemma fri_day3 (d : ℕ) (h : (d + 4) % 7 = 5) : isBusinessDay (d + 3) = true := by
  simp only [isBusinessDay, dayOfWeek, Bool.and_eq_true, bne_iff_ne, ne_eq]; omega

lemma fri_ms0 (d : ℕ) (h : (d + 4) % 7 = 5) :
    dayBusinessMs (d * msPerDay + 16 * msPerHour)
      ((d + 3) * msPerDay + 11 * msPerHour) (d + 0) = 3600000 := by
  unfold dayBusinessMs
  rw [if_pos (fri_day0 d h)]
  simp only [msPerDay, msPerHour]
  omega

lemma fri_ms1 (d : ℕ) (h : (d + 4) % 7 = 5) :
    dayBusinessMs (d * msPerDay + 16 * msPerHour)
      ((d + 3) * msPerDay + 11 * msPerHour) (d + 1) = 0 := by
  unfold dayBusinessMs
  rw [if_neg (by rw [fri_day1 d h]; simp)]

lemma fri_ms2 (d : ℕ) (h : (d + 4) % 7 = 5) :
    dayBusinessMs (d * msPerDay + 16 * msPerHour)
      ((d + 3) * msPerDay + 11 * msPerHour) (d + 2) = 0 := by
  unfold dayBusinessMs
  rw [if_neg (by rw [fri_day2 d h]; simp)]

lemma fri_ms3 (d : ℕ) (h : (d + 4) % 7 = 5) :
    dayBusinessMs (d * msPerDay + 16 * msPerHour)
      ((d + 3) * msPerDay + 11 * msPerHour) (d + 3) = 7200000 := by
  unfold dayBusinessMs
  rw [if_pos (fri_day3 d h)]
  simp only [msPerDay, msPerHour]
  omega

/-- Friday 16:00 to the following Monday 11:00 spans 3 business hours, for any
Friday `d`: 1 h left of the 9-17 Friday window plus 2 h of the Monday one. -/
lemma fri_mon_businessHours (d : ℕ) (h : (d + 4) % 7 = 5) :
    calculateBusinessHours (d * msPerDay + 16 * msPerHour)
      ((d + 3) * msPerDay + 11 * msPerHour) = 3 := by
  unfold calculateBusinessHours
  rw [if_pos (fri_lt d), fri_start, fri_stop]
  have hrange : d + 3 + 1 - d = 4 := by omega
  rw [hrange]
  have hlist : List.range 4 = [0, 1, 2, 3] := by rfl
  rw [hlist]
  simp only [List.map_cons, List.map_nil, List.sum_cons, List.sum_nil]
  rw [fri_ms0 d h, fri_ms1 d h, fri_ms2 d h, fri_ms3 d h]
  norm_num [msPerHour]

/-- C9: `businessHours(t, t) = 0` for every `t`; the result is always
nonnegative; and whenever `t2 ≤ t1` the result is 0. -/
theorem businessHours_refl_nonneg_zero (t t1 t2 : ℕ) :
    calculateBusinessHours t t = 0 ∧
      0 ≤ calculateBusinessHours t1 t2 ∧
      (t2 ≤ t1 → calculateBusinessHours t1 t2 = 0) := by
  refine ⟨by simp [calculateBusinessHours], ?_, fun h => ?_⟩
  · unfold calculateBusinessHours
    split
    · positivity
    · exact le_refl 0
  · unfold calculateBusinessHours
    rw [if_neg (by omega)]

/-- Closed instance of `businessHours_refl_nonneg_zero`, the guarded part
discharged at `t1 = 7`, `t2 = 3`. -/
theorem businessHours_refl_nonneg_zero_witness :
    calculateBusinessHours 5 5 = 0 ∧
      0 ≤ calculateBusinessHours 7 3 ∧ calculateBusinessHours 7 3 = 0 := by
  have h := businessHours_refl_nonneg_zero 5 7 3
  exact ⟨h.1, h.2.1, h.2.2 (by norm_num)⟩

/-- C4 counterexample: with the 9-17 work day of `timeUtils.ts`, the span from
Friday 1970-01-02 16:00 (day index 1) to the following Monday 11:00 is 3
business hours (1 h on Friday + 2 h on Monday), not 4.0 as the claim states. -/
theorem fridayMonday_businessHours_ne_four :
    calculateBusinessHours (1 * msPerDay + 16 * msPerHour)
      ((1 + 3) * msPerDay + 11 * msPerHour) ≠ 4 := by
  rw [fri_mon_businessHours 1 (by decide)]
  norm_num

/-- C4 amended: for every Friday `d` (as a calendar-day index), the business
hours from Friday 16:00 to the following Monday 11:00 equal 3.0 under the
default 9-17 calendar of `timeUtils.ts` (the spec's value 4.0 matches only the
9-18 calendar documented in the README, not the shipped `timeUtils.ts`). -/
theorem fridayMonday_businessHours_eq_three (d : ℕ) (h : dayOfWeek d = 5) :
    calculateBusinessHours (d * msPerDay + 16 * msPerHour)
      ((d + 3) * msPerDay + 11 * msPerHour) = 3 :=
  fri_mon_businessHours d h

/-- Closed instance of `fridayMonday_businessHours_eq_three` at the concrete
Friday 1970-01-02 (day index 1). -/
theorem fridayMonday_businessHours_eq_three_witness :
    calculateBusinessHours (1 * msPerDay + 16 * msPerHour)
      ((1 + 3) * msPerDay + 11 * msPerHour) = 3 :=
  fridayMonday_businessHours_eq_three 1 (by decide)

/-- One entry of `LinearIssue.statusHistory` (`linearApi.ts`): a recorded state
change.  The calculator code guards against absent `toState`/`timestamp`
fields, so both are optional here. -/
structure Transition where
  timestamp : Option ℕ
  fromState : Option String
  toState : Option String
deriving DecidableEq

/-- The `state` object of a `LinearIssue`: display name plus coarse category
(`type`, e.g. "completed"). -/
structure IssueState where
  name : String
  type : String
deriving DecidableEq

/-- One label attached to an issue (only the name matters to the calculator). -/
structure IssueLabel where
  name : String
deriving DecidableEq

/-- `LinearIssue` (fields used by the calculation core of `doraCalculator.ts`).
Timestamps are UTC ms; `estimate` is the optional story-point estimate. -/
structure LinearIssue where
  id : String
  identifier : String
  title : String
  estimate : Option ℚ
  state : IssueState
  createdAt : Option ℕ
  startedAt : Option ℕ
  completedAt : Option ℕ
  labels : List IssueLabel
  statusHistory : Option (List Transition)
deriving DecidableEq

/-- First transition of the status history whose `toState` is exactly
`"Merged"` (`getTimeToDeployHours`, README lines 1735-1738). -/
def mergedTransition (issue : LinearIssue) : Option Transition :=
  (issue.statusHistory.getD []).find? (fun e => decide (e.toState = some "Merged"))

/-- First transition of the status history whose `toState` is exactly
`"Deployed"` (`getTimeToDeployHours`, README lines 1741-1744). -/
def deployedTransition (issue : LinearIssue) : Option Transition :=
  (issue.statusHistory.getD []).find? (fun e => decide (e.toState = some "Deployed"))

/-- `DORACalculator.getTimeToDeployHours` (README lines 1724-1778): business
hours from the exact "Merged" transition to the exact "Deployed" transition;
0 when the item is not completed, when either transition (or its timestamp) is
missing, or when the deploy does not come strictly after the merge. -/
def getTimeToDeployHours (issue : LinearIssue) : ℚ :=
  if issue.completedAt = none ∨ issue.state.type ≠ "completed" then 0
  else
    match (mergedTransition issue).bind Transition.timestamp,
        (deployedTransition issue).bind Transition.timestamp with
    | some merged, some deployed =>
        if deployed ≤ merged then 0 else calculateBusinessHours merged deployed
    | some _, none => 0
    | none, _ => 0

/-- The time-to-deploy sample of `calculateDORAMetrics` (README line 2086):
per-issue deploy times with the non-positive ones filtered out. -/
def deployTimesSample (issues : List LinearIssue) : List ℚ :=
  (issues.map getTimeToDeployHours).filter (fun time => decide (0 < time))

/-- C1: a completed item whose first "Merged" transition is at `m` and first
"Deployed" transition is at `d` with `m < d` gets time-to-deploy
`businessHours(m, d)`; and an item with no "Merged" or no "Deployed"
transition gets 0 and is excluded from the time-to-deploy sample instead of
contributing a zero duration. -/
theorem timeToDeploy_roundtrip :
    (∀ (issue : LinearIssue) (tm td : Transition) (m d : ℕ),
        issue.completedAt ≠ none →
        issue.state.type = "completed" →
        mergedTransition issue = some tm → tm.timestamp = some m →
        deployedTransition issue = some td → td.timestamp = some d →
        m < d →
        getTimeToDeployHours issue = calculateBusinessHours m d) ∧
      ∀ (issue : LinearIssue) (rest : List LinearIssue),
        mergedTransition issue = none ∨ deployedTransition issue = none →
        getTimeToDeployHours issue = 0 ∧
          deployTimesSample (issue :: rest) = deployTimesSample rest := by
  constructor
  · intro issue tm td m d hc hs hm htm hd htd hlt
    unfold getTimeToDeployHours
    rw [if_neg (by simp [hc, hs]), hm, hd]
    simp only [Option.some_bind, htm, htd]
    rw [if_neg (by omega)]
  · intro issue rest h
    have h0 : getTimeToDeployHours issue = 0 := by
      unfold getTimeToDeployHours
      split
      · rfl
      · rcases h with h | h
        · rw [h]
          rfl
        · rw [h]
          rcases (mergedTransition issue).bind Transition.timestamp with _ | m <;> rfl
    refine ⟨h0, ?_⟩
    simp [deployTimesSample, h0]

/-- The "Merged" transition of the demo issue below. -/
def demoMergedT : Transition :=
  { timestamp := some (1 * msPerDay + 16 * msPerHour), fromState := some "In Progress",
    toState := some "Merged" }

/-- The "Deployed" transition of the demo issues below. -/
def demoDeployedT : Transition :=
  { timestamp := some ((1 + 3) * msPerDay + 11 * msPerHour), fromState := some "Merged",
    toState := some "Deployed" }

/-- A completed issue with a "Merged" transition on Friday 16:00 and a
"Deployed" one the following Monday 11:00. -/
def demoDeployedIssue : LinearIssue :=
  { id := "1", identifier := "ENG-1", title := "deployed demo", estimate := some 3,
    state := { name := "Deployed", type := "completed" },
    createdAt := some 0, startedAt := some msPerDay,
    completedAt := some ((1 + 3) * msPerDay + 11 * msPerHour), labels := [],
    statusHistory := some [demoMergedT, demoDeployedT] }

/-- `demoDeployedIssue` with the "Merged" transition removed. -/
def demoUnmergedIssue : LinearIssue :=
  { demoDeployedIssue with statusHistory := some [demoDeployedT] }

/-- Witness for `timeToDeploy_roundtrip` at concrete issues. -/
theorem timeToDeploy_roundtrip_witness :
    getTimeToDeployHours demoDeployedIssue =
        calculateBusinessHours (1 * msPerDay + 16 * msPerHour)
          ((1 + 3) * msPerDay + 11 * msPerHour) ∧
      getTimeToDeployHours demoUnmergedIssue = 0 ∧
        deployTimesSample [demoUnmergedIssue] = deployTimesSample [] := by
  refine ⟨?_, ?_⟩
  · exact timeToDeploy_roundtrip.1 demoDeployedIssue demoMergedT demoDeployedT
      (1 * msPerDay + 16 * msPerHour) ((1 + 3) * msPerDay + 11 * msPerHour)
      (by decide) (by decide) (by decide) (by decide) (by decide) (by decide)
      (by decide)
  · exact timeToDeploy_roundtrip.2 demoUnmergedIssue [] (Or.inl (by decide))

/-- `LinearCycle` (fields used by the calculator): a bounding time window. -/
structure LinearCycle where
  id : String
  number : ℕ
  startsAt : ℕ
  endsAt : ℕ
deriving DecidableEq

/-- `DORACalculator.getRating` (README lines 1636-1650): four-tier rating from
an ordered threshold triple; `reverse = true` for metrics where lower is
better.  Ratings are the strings "Elite" / "High" / "Medium" / "Low". -/
def getRating (value : ℚ) (thresholds : List ℚ) (reverse : Bool) : String :=
  if reverse then
    if value ≤ thresholds.getD 0 0 then "Elite"
    else if value ≤ thresholds.getD 1 0 then "High"
    else if value ≤ thresholds.getD 2 0 then "Medium"
    else "Low"
  else
    if thresholds.getD 0 0 ≤ value then "Elite"
    else if thresholds.getD 1 0 ≤ value then "High"
    else if thresholds.getD 2 0 ≤ value then "Medium"
    else "Low"

/-- Issues deployed within the selected cycle (README lines 1860-1865):
completed issues whose completion timestamp lies in
`[cycle.startsAt, cycle.endsAt]`. -/
def deployedInCycle (issues : List LinearIssue) (cycle : LinearCycle) : List LinearIssue :=
  issues.filter (fun issue =>
    match issue.completedAt with
    | none => false
    | some completedDate =>
        decide (issue.state.type = "completed") &&
          decide (cycle.startsAt ≤ completedDate) && decide (completedDate ≤ cycle.endsAt))

/-- The cycle-bound deployment-frequency metric of `calculateDORAMetrics`
(README lines 1855-1869 and 2130-2138): value is the raw count of issues
deployed in the cycle, rated against the thresholds `[10, 5, 1]` with
higher-is-better orientation. -/
def cycleDeploymentFrequencyMetric (issues : List LinearIssue) (cycle : LinearCycle) :
    ℚ × String :=
  let deploymentFrequency : ℚ := ((deployedInCycle issues cycle).length : ℚ)
  (deploymentFrequency, getRating deploymentFrequency [10, 5, 1] false)

/-- Demo cycle: a 10-day window starting at the epoch. -/
def demoCycle : LinearCycle :=
  { id := "cycle-1", number := 1, startsAt := 0, endsAt := 10 * msPerDay }

/-- A minimal completed issue, finished on the given day of `demoCycle`. -/
def demoCompletedIssue (n : String) (day : ℕ) : LinearIssue :=
  { id := n, identifier := n, title := n, estimate := some 2,
    state := { name := "Deployed", type := "completed" },
    createdAt := some 0, startedAt := some 0, completedAt := some (day * msPerDay),
    labels := [], statusHistory := some [] }

/-- C2 counterexample: three completed items inside the 10-day cycle give
deployment-frequency value 3 but rating "Medium" (3 ≥ the medium threshold 1),
not "Low" as the claim states. -/
theorem cycleDeploymentFrequency_three_not_low :
    (cycleDeploymentFrequencyMetric
        [demoCompletedIssue "a" 2, demoCompletedIssue "b" 3, demoCompletedIssue "c" 5]
        demoCycle).1 = 3 ∧
      (cycleDeploymentFrequencyMetric
          [demoCompletedIssue "a" 2, demoCompletedIssue "b" 3, demoCompletedIssue "c" 5]
          demoCycle).2 ≠ "Low" := by
  constructor
  · norm_num [cycleDeploymentFrequencyMetric, deployedInCycle, demoCompletedIssue, demoCycle,
      msPerDay, List.filter]
  · norm_num [cycleDeploymentFrequencyMetric, deployedInCycle, demoCompletedIssue, demoCycle,
      getRating, msPerDay, List.filter]
    decide

/-- C2 amended: whenever exactly 3 completed items fall inside the selected
cycle, the cycle-bound deployment-frequency metric has value 3 and rating
"Medium" (the thresholds `elite > 10 / high > 5 / medium > 1` place 3 in the
Medium tier; the changelog line promising "Low" contradicts its own
thresholds). -/
theorem cycleDeploymentFrequency_three_medium (issues : List LinearIssue)
    (cycle : LinearCycle) (h : (deployedInCycle issues cycle).length = 3) :
    cycleDeploymentFrequencyMetric issues cycle = (3, "Medium") := by
  unfold cycleDeploymentFrequencyMetric
  rw [h]
  norm_num [getRating]

/-- Witness for `cycleDeploymentFrequency_three_medium` at three concrete
completed issues in the demo cycle. -/
theorem cycleDeploymentFrequency_three_medium_witness :
    cycleDeploymentFrequencyMetric
        [demoCompletedIssue "a" 2, demoCompletedIssue "b" 3, demoCompletedIssue "c" 5]
        demoCycle = (3, "Medium") :=
  cycleDeploymentFrequency_three_medium _ demoCycle (by decide)

/-- `DORACalculator.getLeadTimeInDays` (README lines 1631-1634): business hours
to business days at 8 h/day, rounded to one decimal with JS `Math.round`. -/
def getLeadTimeInDays (businessHrs : ℚ) : ℚ :=
  ((round (businessHrs / 8 * 10) : ℤ) : ℚ) / 10

/-- Lead-time-for-changes metric assembly of `calculateDORAMetrics` (README
lines 1916-1920 and 2140-2146): mean of the (already filtered) positive lead
times, converted to days and rated reverse-scored against `[1, 7, 30]`. -/
def leadTimeForChangesMetric (leadTimes : List ℚ) : ℚ × String :=
  let averageLeadTimeHours :=
    if 0 < leadTimes.length then leadTimes.sum / (leadTimes.length : ℚ) else 0
  let averageLeadTimeDays := getLeadTimeInDays averageLeadTimeHours
  (averageLeadTimeDays, getRating averageLeadTimeDays [1, 7, 30] true)

/-- Time-to-recovery metric assembly of `calculateDORAMetrics` (README lines
2033-2037 and 2160-2166): mean recovery hours in days, rated reverse-scored
against `[0.04, 1, 7]`. -/
def timeToRecoveryMetric (recoveryTimes : List ℚ) : ℚ × String :=
  let averageRecoveryTimeHours :=
    if 0 < recoveryTimes.length then recoveryTimes.sum / (recoveryTimes.length : ℚ) else 0
  let averageRecoveryTimeDays := getLeadTimeInDays averageRecoveryTimeHours
  (averageRecoveryTimeDays, getRating averageRecoveryTimeDays [0.04, 1, 7] true)

/-- Time-to-deploy metric assembly of `calculateDORAMetrics` (README lines
2086-2090 and 2167-2179): mean deploy hours in days, rated reverse-scored
against `[0.125, 0.5, 2]`, plus the human-readable deployment description. -/
def timeToDeployMetric (deployTimes : List ℚ) (recentCompletedCount : ℕ) :
    ℚ × String × String :=
  let averageDeployTimeHours :=
    if 0 < deployTimes.length then deployTimes.sum / (deployTimes.length : ℚ) else 0
  let averageDeployTimeDays := getLeadTimeInDays averageDeployTimeHours
  let deploymentDescription :=
    if recentCompletedCount = 0 then "No deployments found in the selected period"
    else toString deployTimes.length ++ " out of " ++ toString recentCompletedCount ++
      " completed issues had measurable deployment times"
  (averageDeployTimeDays, getRating averageDeployTimeDays [0.125, 0.5, 2] true,
    deploymentDescription)

/-- JS `String.prototype.includes` on char lists: contiguous-substring test. -/
def listIncludes (needle : List Char) : List Char → Bool
  | [] => needle.isEmpty
  | c :: t => needle.isPrefixOf (c :: t) || listIncludes needle t

/-- JS `s.includes(pattern)`. -/
def strIncludes (s pattern : String) : Bool :=
  listIncludes pattern.toList s.toList

/-- Deployed-task test of the change-failure-rate block (README lines
1965-1968): state name contains "deployed" or coarse category "completed". -/
def isDeployedTask (issue : LinearIssue) : Bool :=
  strIncludes issue.state.name.toLower "deployed" || issue.state.type == "completed"

/-- Failure test of the change-failure-rate block (README lines 1971-1976):
some label name contains "incident" or "rollback". -/
def hasFailureLabel (issue : LinearIssue) : Bool :=
  issue.labels.any (fun label =>
    strIncludes label.name.toLower "incident" || strIncludes label.name.toLower "rollback")

/-- Change-failure-rate metric assembly of `calculateDORAMetrics` (README
lines 1963-1980 and 2147-2158): failed ÷ deployed × 100 (0 when no deployed
tasks), value rounded to one decimal, rated reverse-scored against
`[15, 30, 45]`, plus the failure description string. -/
def changeFailureRateMetric (recentIssues : List LinearIssue) : ℚ × String × String :=
  let deployedTasks := recentIssues.filter isDeployedTask
  let failedDeployments := deployedTasks.filter hasFailureLabel
  let changeFailureRate :=
    if 0 < deployedTasks.length then
      (failedDeployments.length : ℚ) / (deployedTasks.length : ℚ) * 100
    else 0
  let failureDescription :=
    if deployedTasks.length = 0 then "No deployments found in the selected period"
    else toString failedDeployments.length ++ " out of " ++ toString deployedTasks.length ++
      " deployments marked as failures (tags: Incident/Rollback)"
  (((round (changeFailureRate * 10) : ℤ) : ℚ) / 10,
    getRating changeFailureRate [15, 30, 45] true, failureDescription)

/-- C5 counterexample: on an empty sample the lead-time-for-changes metric
returns value 0 rated "Elite" — the highest tier, not the lowest ("Low") as
the claim states (reverse-scored thresholds place 0 in the Elite tier). -/
theorem emptySample_leadTime_not_low :
    leadTimeForChangesMetric [] = (0, "Elite") ∧ ("Elite" : String) ≠ "Low" := by
  constructor
  · norm_num [leadTimeForChangesMetric, getLeadTimeInDays, getRating]
  · decide

/-- C5 amended: every metric returns value 0 on an empty input sample and (by
construction of the total embedding) never throws, but only the
higher-is-better deployment-frequency metric gets the lowest tier "Low"; the
reverse-scored metrics (lead time, change failure rate, recovery, deploy time)
are rated "Elite" at 0, and the explanation string exists only for change
failure rate and time to deploy. -/
theorem emptySample_metrics :
    cycleDeploymentFrequencyMetric [] demoCycle = (0, "Low") ∧
      leadTimeForChangesMetric [] = (0, "Elite") ∧
      changeFailureRateMetric [] =
        (0, "Elite", "No deployments found in the selected period") ∧
      timeToRecoveryMetric [] = (0, "Elite") ∧
      timeToDeployMetric [] 0 =
        (0, "Elite", "No deployments found in the selected period") := by
  refine ⟨?_, ?_, ?_, ?_, ?_⟩
  · norm_num [cycleDeploymentFrequencyMetric, deployedInCycle, getRating]
  · norm_num [leadTimeForChangesMetric, getLeadTimeInDays, getRating]
  · norm_num [changeFailureRateMetric, getRating]
  · norm_num [timeToRecoveryMetric, getLeadTimeInDays, getRating]
  · norm_num [timeToDeployMetric, getLeadTimeInDays, getRating]

/-- `getSeverityLevel` of the bottleneck-detection algorithm (README lines
371-377): severity from the actual/expected ratio with strict thresholds. -/
def getSeverityLevel (actual expected : ℚ) : String :=
  let ratio := actual / expected
  if 3 < ratio then "Critical"
  else if 2 < ratio then "High"
  else if 1.5 < ratio then "Medium"
  else "Low"

/-- A story as consumed by `detectBottlenecks` (README lines 353-368):
estimate plus measured cycle time in business hours. -/
structure Story where
  id : String
  estimate : ℕ
  cycleTime : ℚ
deriving DecidableEq

/-- Flagging and severity of one story in `detectBottlenecks` (README lines
353-368): flagged iff `actualTime > expectedTime * thresholdMultiplier`, with
`expectedTime` the team baseline for the story's estimate. -/
def detectBottleneck (storyPointBaselines : ℕ → ℚ) (story : Story)
    (thresholdMultiplier : ℚ) : Bool × String :=
  let expectedTime := storyPointBaselines story.estimate
  let actualTime := story.cycleTime
  let threshold := expectedTime * thresholdMultiplier
  (decide (threshold < actualTime), getSeverityLevel actualTime expectedTime)

/-- Overrun percentage of one issue in the bottleneck block of
`calculateEstimationAnalysis` (README line 2337). -/
def bottleneckOverrun (actualTime expectedTime : ℚ) : ℚ :=
  if 0 < expectedTime ∧ 0 < actualTime then (actualTime - expectedTime) / expectedTime * 100
  else 0

/-- Bottleneck filter of `calculateEstimationAnalysis` (README lines
2333-2348): an issue with lead time `actualTime` and estimate `estimate` is
kept iff its time is positive and its rounded overrun against `estimate * 8`
exceeds 50 %. -/
def flaggedAsBottleneck (actualTime estimate : ℚ) : Bool :=
  decide (0 < actualTime) &&
    decide ((50 : ℤ) < round (bottleneckOverrun actualTime (estimate * 8)))

/-- The fixed 8 h/point baseline (1 story point = 1 business day). -/
def eightHourBaseline (estimate : ℕ) : ℚ := 8 * estimate

/-- C6 counterexample: estimate 2 under the 8 h/point baseline (expected 16 h)
with actual 24 h has ratio exactly 1.5; it is NOT flagged (the comparison is
strict) and its severity is "Low", not "Medium"; the estimation-analysis
overrun filter (overrun 50 % > 50 %) rejects it as well. -/
theorem bottleneck_ratio_onePointFive_not_flagged :
    detectBottleneck eightHourBaseline { id := "S-1", estimate := 2, cycleTime := 24 } 1.5 =
        (false, "Low") ∧
      flaggedAsBottleneck 24 2 = false := by
  constructor
  · norm_num [detectBottleneck, eightHourBaseline, getSeverityLevel]
  · norm_num [flaggedAsBottleneck, bottleneckOverrun]

/-- C6 amended: a story whose actual duration equals exactly `expected × 1.5`
is not flagged as a bottleneck (flagging needs a ratio strictly above the
multiplier) and its severity is "Low" (Medium needs a ratio strictly above
1.5); likewise the overrun filter of `calculateEstimationAnalysis` rejects an
issue at exactly 50 % overrun. -/
theorem bottleneck_ratio_onePointFive_boundary :
    (∀ (baseline : ℕ → ℚ) (story : Story),
        0 < baseline story.estimate →
        story.cycleTime = baseline story.estimate * 1.5 →
        detectBottleneck baseline story 1.5 = (false, "Low")) ∧
      ∀ est : ℚ, 0 < est → flaggedAsBottleneck (est * 8 * 1.5) est = false := by
  constructor
  · intro baseline story hpos heq
    have hr : baseline story.estimate * (3 / 2 : ℚ) / baseline story.estimate = 3 / 2 := by
      field_simp
      ring
    unfold detectBottleneck getSeverityLevel
    rw [heq]
    norm_num [hr]
  · intro est hpos
    have h8 : (0 : ℚ) < est * 8 := by positivity
    have hov : bottleneckOverrun (est * 8 * 1.5) (est * 8) = 50 := by
      unfold bottleneckOverrun
      rw [if_pos ⟨h8, by positivity⟩]
      field_simp
      ring
    unfold flaggedAsBottleneck
    rw [hov]
    norm_num

/-- Witness for `bottleneck_ratio_onePointFive_boundary` at estimate 2 under
the 8 h/point baseline (expected 16 h, actual 24 h). -/
theorem bottleneck_ratio_onePointFive_boundary_witness :
    detectBottleneck eightHourBaseline { id := "S-1", estimate := 2, cycleTime := 24 } 1.5 =
        (false, "Low") ∧
      flaggedAsBottleneck (2 * 8 * 1.5) 2 = false := by
  constructor
  · exact bottleneck_ratio_onePointFive_boundary.1 eightHourBaseline
      { id := "S-1", estimate := 2, cycleTime := 24 }
      (by norm_num [eightHourBaseline]) (by norm_num [eightHourBaseline])
  · exact bottleneck_ratio_onePointFive_boundary.2 2 (by norm_num)

/-- JS `x || default` on an optional number: `undefined` and 0 are falsy. -/
def jsOrNum (e : Option ℚ) (dflt : ℚ) : ℚ :=
  match e with
  | none => dflt
  | some v => if v = 0 then dflt else v

/-- Week key of a completion timestamp in `calculateVelocityTrends` (README
lines 2395-2398): the completion date shifted back by its day-of-week, i.e.
the preceding Sunday (an integer day index, negative for the first days of
1970). -/
def weekKey (t : ℕ) : ℤ := (dayIndex t : ℤ) - (dayOfWeek (dayIndex t) : ℤ)

/-- Append `issue` to the group keyed `k`, creating the group at the end when
absent — the behaviour of the JS `Map` in `calculateVelocityTrends`. -/
def insertGroup (groups : List (ℤ × List LinearIssue)) (k : ℤ) (issue : LinearIssue) :
    List (ℤ × List LinearIssue) :=
  match groups with
  | [] => [(k, [issue])]
  | g :: rest =>
      if g.1 = k then (g.1, g.2 ++ [issue]) :: rest else g :: insertGroup rest k issue

/-- Grouping of `calculateVelocityTrends` (README lines 2391-2405): issues
with a completion timestamp, bucketed by completion week in first-appearance
order. -/
def groupByWeek (issues : List LinearIssue) : List (ℤ × List LinearIssue) :=
  issues.foldl (fun groups issue =>
    match issue.completedAt with
    | none => groups
    | some t => insertGroup groups (weekKey t) issue) []

/-- One row of the velocity-trend output. -/
structure VelocityWeek where
  period : ℤ
  planned : ℚ
  actual : ℚ
  accuracy : ℚ
deriving DecidableEq

/-- Insertion step of the sort by week-start period (README line 2420). -/
def insertByPeriod (w : VelocityWeek) : List VelocityWeek → List VelocityWeek
  | [] => [w]
  | v :: vs => if w.period < v.period then w :: v :: vs else v :: insertByPeriod w vs

/-- Sort of the weekly rows by period ascending (the JS sort by the ISO
week-start string). -/
def sortByPeriod : List VelocityWeek → List VelocityWeek
  | [] => []
  | w :: ws => insertByPeriod w (sortByPeriod ws)

/-- `DORACalculator.calculateVelocityTrends` (README lines 2383-2432), minus
the attached confidence interval (computed from the weekly accuracies and
independent of the per-week figures): per completion week, planned points =
sum of `estimate || 0`, actual points = sum of `estimate || 1`, accuracy =
`min(actual, planned) / planned * 100` (0 when `planned = 0`); rows sorted by
week, trimmed to the last 8, accuracy rounded with `Math.round`. -/
def calculateVelocityTrends (issues : List LinearIssue) : List VelocityWeek :=
  let weeklyData := (groupByWeek issues).map (fun g =>
    let planned := (g.2.map (fun issue => jsOrNum issue.estimate 0)).sum
    let actual := (g.2.map (fun issue => jsOrNum issue.estimate 1)).sum
    let accuracy := if 0 < planned then min actual planned / planned * 100 else 0
    { period := g.1, planned := planned, actual := actual, accuracy := accuracy })
  let sorted := sortByPeriod weeklyData
  (sorted.drop (sorted.length - 8)).map (fun w =>
    { w with accuracy := ((round w.accuracy : ℤ) : ℚ) })

lemma insertGroup_mem (S : List LinearIssue) (groups : List (ℤ × List LinearIssue))
    (k : ℤ) (issue : LinearIssue)
    (hg : ∀ g ∈ groups, g.2 ≠ [] ∧ ∀ i ∈ g.2, i ∈ S) (hi : issue ∈ S) :
    ∀ g ∈ insertGroup groups k issue, g.2 ≠ [] ∧ ∀ i ∈ g.2, i ∈ S := by
  induction groups with
  | nil =>
    intro g hmem
    simp only [insertGroup, List.mem_singleton] at hmem
    subst hmem
    exact ⟨by simp, by simpa using hi⟩
  | cons hd tl ih =>
    intro g hmem
    unfold insertGroup at hmem
    by_cases hk : hd.1 = k
    · rw [if_pos hk] at hmem
      rcases List.mem_cons.mp hmem with h | h
      · subst h
        refine ⟨by simp, ?_⟩
        intro i hi'
        rcases List.mem_append.mp hi' with h | h
        · exact (hg hd (List.mem_cons_self hd tl)).2 i h
        · simpa using (List.mem_singleton.mp h) ▸ hi
      · exact hg g (List.mem_cons_of_mem hd h)
    · rw [if_neg hk] at hmem
      rcases List.mem_cons.mp hmem with h | h
      · exact h ▸ hg hd (List.mem_cons_self hd tl)
      · exact ih (fun g' hg' => hg g' (List.mem_cons_of_mem hd hg')) g h

lemma groupByWeek_fold_mem (S : List LinearIssue) :
    ∀ (l : List LinearIssue) (acc : List (ℤ × List LinearIssue)),
      (∀ i ∈ l, i ∈ S) → (∀ g ∈ acc, g.2 ≠ [] ∧ ∀ i ∈ g.2, i ∈ S) →
      ∀ g ∈ l.foldl (fun groups issue =>
          match issue.completedAt with
          | none => groups
          | some t => insertGroup groups (weekKey t) issue) acc,
        g.2 ≠ [] ∧ ∀ i ∈ g.2, i ∈ S := by
  intro l
  induction l with
  | nil => intro acc _ hacc; simpa using hacc
  | cons hd tl ih =>
    intro acc hl hacc
    simp only [List.foldl_cons]
    apply ih
    · intro i hi'
      exact hl i (List.mem_cons_of_mem hd hi')
    · rcases hhd : hd.completedAt with _ | t
      · simpa using hacc
      · simp only
        exact insertGroup_mem S acc (weekKey t) hd hacc (hl hd (List.mem_cons_self hd tl))

/-- Every bucket of `groupByWeek` is nonempty and holds only input issues. -/
lemma groupByWeek_mem (issues : List LinearIssue) :
    ∀ g ∈ groupByWeek issues, g.2 ≠ [] ∧ ∀ i ∈ g.2, i ∈ issues := by
  exact groupByWeek_fold_mem issues issues [] (fun i hi => hi) (by simp)

lemma insertByPeriod_mem (w v : VelocityWeek) (l : List VelocityWeek)
    (h : v ∈ insertByPeriod w l) : v = w ∨ v ∈ l := by
  induction l with
  | nil => simpa [insertByPeriod] using h
  | cons hd tl ih =>
    unfold insertByPeriod at h
    by_cases hp : w.period < hd.period
    · rw [if_pos hp] at h
      rcases List.mem_cons.mp h with h | h
      · exact Or.inl h
      · exact Or.inr h
    · rw [if_neg hp] at h
      rcases List.mem_cons.mp h with h | h
      · exact Or.inr (h ▸ List.mem_cons_self hd tl)
      · rcases ih h with h | h
        · exact Or.inl h
        · exact Or.inr (List.mem_cons_of_mem hd h)

lemma sortByPeriod_mem (v : VelocityWeek) (l : List VelocityWeek)
    (h : v ∈ sortByPeriod l) : v ∈ l := by
  induction l with
  | nil => simp [sortByPeriod] at h
  | cons hd tl ih =>
    unfold sortByPeriod at h
    rcases insertByPeriod_mem hd v (sortByPeriod tl) h with h | h
    · exact h ▸ List.mem_cons_self hd tl
    · exact List.mem_cons_of_mem hd (ih h)

/-- C10: when every input issue carries a positive estimate (as the call site
`calculateEstimationAnalysis` guarantees via
`getAllCompletedIssuesWithEstimates`), every velocity-trend bucket has
`planned = actual` (both sum the same estimates) and reports accuracy exactly
100, so under- or over-delivery can never be observed in this output. -/
theorem velocityTrends_accuracy_always_100 (issues : List LinearIssue)
    (hpos : ∀ issue ∈ issues, ∃ v, issue.estimate = some v ∧ 0 < v) :
    ∀ w ∈ calculateVelocityTrends issues, w.planned = w.actual ∧ w.accuracy = 100 := by
  intro w hw
  unfold calculateVelocityTrends at hw
  simp only [List.mem_map] at hw
  obtain ⟨w', hw', hww⟩ := hw
  have hw'mem := sortByPeriod_mem w' _ (List.mem_of_mem_drop hw')
  simp only [List.mem_map] at hw'mem
  obtain ⟨g, hg, hgw⟩ := hw'mem
  obtain ⟨hne, hsub⟩ := groupByWeek_mem issues g hg
  have hterm : ∀ issue ∈ g.2,
      jsOrNum issue.estimate 0 = jsOrNum issue.estimate 1 ∧
        0 < jsOrNum issue.estimate 0 := by
    intro issue hi
    obtain ⟨v, hv, hvpos⟩ := hpos issue (hsub issue hi)
    rw [hv]
    simp only [jsOrNum]
    have hne0 : ¬ v = 0 := by exact ne_of_gt hvpos
    rw [if_neg hne0, if_neg hne0]
    exact ⟨rfl, hvpos⟩
  have hpe : (g.2.map (fun issue => jsOrNum issue.estimate 0)).sum =
      (g.2.map (fun issue => jsOrNum issue.estimate 1)).sum := by
    apply congrArg
    exact List.map_congr_left (fun issue hi => (hterm issue hi).1)
  have hplpos : 0 < (g.2.map (fun issue => jsOrNum issue.estimate 0)).sum := by
    apply List.sum_pos
    · intro x hx
      simp only [List.mem_map] at hx
      obtain ⟨issue, hi, hix⟩ := hx
      exact hix ▸ (hterm issue hi).2
    · simpa using hne
  have hacc : w'.accuracy = 100 ∧ w'.planned = w'.actual := by
    rw [← hgw]
    simp only
    rw [← hpe]
    refine ⟨?_, rfl⟩
    rw [if_pos hplpos, min_self, div_self (ne_of_gt hplpos)]
    norm_num
  constructor
  · rw [← hww]
    exact hacc.2
  · rw [← hww]
    simp only
    rw [hacc.1]
    norm_num

/-- `ConfidenceInterval` of `statisticsUtils.ts`. -/
structure ConfidenceInterval where
  lower : ℝ
  upper : ℝ
  confidence : ℕ

/-- `PredictiveRange` of `statisticsUtils.ts`. -/
structure PredictiveRange where
  expectedValue : ℝ
  minValue : ℝ
  maxValue : ℝ
  standardError : ℝ
  sampleSize : ℕ

/-- `StatisticalSummary` of `statisticsUtils.ts`. -/
structure StatisticalSummary where
  mean : ℝ
  median : ℝ
  standardDeviation : ℝ
  standardError : ℝ
  sampleSize : ℕ
  confidenceInterval : ConfidenceInterval
  predictiveRange : PredictiveRange

/-- Result record of `calculateAccuracyWithConfidence`. -/
structure AccuracyResult where
  accuracy : ℝ
  confidenceInterval : ConfidenceInterval
  sampleSize : ℕ

noncomputable section

/-- `calculateMean` (README lines 2706-2709). -/
def calculateMean (values : List ℝ) : ℝ :=
  if values.length = 0 then 0 else values.sum / (values.length : ℝ)

/-- Insertion step of the numeric sort used by `calculateMedian`. -/
def insertSorted (x : ℝ) : List ℝ → List ℝ
  | [] => [x]
  | y :: ys => if x ≤ y then x :: y :: ys else y :: insertSorted x ys

/-- The ascending numeric sort `[...values].sort((a, b) => a - b)`. -/
def sortedValues : List ℝ → List ℝ
  | [] => []
  | x :: xs => insertSorted x (sortedValues xs)

/-- `calculateMedian` (README lines 2714-2725): midpoint-average of the two
central elements for even-sized samples. -/
def calculateMedian (values : List ℝ) : ℝ :=
  if values.length = 0 then 0
  else
    let sorted := sortedValues values
    let mid := values.length / 2
    if values.length % 2 = 0 then (sorted.getD (mid - 1) 0 + sorted.getD mid 0) / 2
    else sorted.getD mid 0

/-- `calculateStandardDeviation` (README lines 2730-2738): sample standard
deviation with the unbiased `n - 1` denominator; 0 for `n ≤ 1`. -/
def calculateStandardDeviation (values : List ℝ) : ℝ :=
  if values.length ≤ 1 then 0
  else
    Real.sqrt ((values.map (fun v => (v - calculateMean values) ^ 2)).sum /
      ((values.length - 1 : ℕ) : ℝ))

/-- `calculateStandardError` (README lines 2743-2748). -/
def calculateStandardError (values : List ℝ) : ℝ :=
  if values.length ≤ 1 then 0
  else calculateStandardDeviation values / Real.sqrt (values.length : ℝ)

end

/-- The 95 % t-table of `getTValue` (README lines 2756-2761). -/
def tTable95 : List (ℕ × ℚ) :=
  [(1, 12.706), (2, 4.303), (3, 3.182), (4, 2.776), (5, 2.571),
   (6, 2.447), (7, 2.365), (8, 2.306), (9, 2.262), (10, 2.228),
   (15, 2.131), (20, 2.086), (25, 2.060), (30, 2.042), (40, 2.021),
   (50, 2.009), (60, 2.000), (100, 1.984), (1000, 1.962)]

/-- The 90 % t-table of `getTValue` (README lines 2764-2769). -/
def tTable90 : List (ℕ × ℚ) :=
  [(1, 6.314), (2, 2.920), (3, 2.353), (4, 2.132), (5, 2.015),
   (6, 1.943), (7, 1.895), (8, 1.860), (9, 1.833), (10, 1.812),
   (15, 1.753), (20, 1.725), (25, 1.708), (30, 1.697), (40, 1.684),
   (50, 1.676), (60, 1.671), (100, 1.660), (1000, 1.645)]

/-- The 99 % t-table of `getTValue` (README lines 2772-2777). -/
def tTable99 : List (ℕ × ℚ) :=
  [(1, 63.657), (2, 9.925), (3, 5.841), (4, 4.604), (5, 4.032),
   (6, 3.707), (7, 3.499), (8, 3.355), (9, 3.250), (10, 3.169),
   (15, 2.947), (20, 2.845), (25, 2.787), (30, 2.750), (40, 2.704),
   (50, 2.678), (60, 2.660), (100, 2.626), (1000, 2.576)]

/-- `getTValue` (README lines 2754-2806): table lookup keyed by confidence
level (90/99, default 95); `df ≥ 1000` reads the 1000 row, otherwise the
first tabulated row with key ≥ `df` (the keys are listed ascending), falling
back to the last row. -/
def getTValue (confidenceLevel : ℕ) (degreesOfFreedom : ℕ) : ℚ :=
  let tTable :=
    if confidenceLevel = 90 then tTable90
    else if confidenceLevel = 99 then tTable99
    else tTable95
  if 1000 ≤ degreesOfFreedom then ((tTable.find? (fun p => p.1 == 1000)).map Prod.snd).getD 0
  else
    match tTable.find? (fun p => decide (degreesOfFreedom ≤ p.1)) with
    | some p => p.2
    | none => ((tTable.getLast?).map Prod.snd).getD 0

lemma tTable90_pos : ∀ p ∈ tTable90, 0 < p.2 := by
  intro p hp
  simp only [tTable90] at hp
  fin_cases hp <;> norm_num

lemma tTable95_pos : ∀ p ∈ tTable95, 0 < p.2 := by
  intro p hp
  simp only [tTable95] at hp
  fin_cases hp <;> norm_num

lemma tTable99_pos : ∀ p ∈ tTable99, 0 < p.2 := by
  intro p hp
  simp only [tTable99] at hp
  fin_cases hp <;> norm_num

lemma t90_key : ((tTable90.find? (fun p => p.1 == 1000)).map Prod.snd).getD 0 = 1.645 := rfl

lemma t95_key : ((tTable95.find? (fun p => p.1 == 1000)).map Prod.snd).getD 0 = 1.962 := rfl

lemma t99_key : ((tTable99.find? (fun p => p.1 == 1000)).map Prod.snd).getD 0 = 2.576 := rfl

lemma t90_last : ((tTable90.getLast?).map Prod.snd).getD 0 = 1.645 := rfl

lemma t95_last : ((tTable95.getLast?).map Prod.snd).getD 0 = 1.962 := rfl

lemma t99_last : ((tTable99.getLast?).map Prod.snd).getD 0 = 2.576 := rfl

lemma lookup_pos (tb : List (ℕ × ℚ)) (df : ℕ)
    (hvals : ∀ p ∈ tb, 0 < p.2)
    (hkey : 0 < ((tb.find? (fun p => p.1 == 1000)).map Prod.snd).getD 0)
    (hlast : 0 < ((tb.getLast?).map Prod.snd).getD 0) :
    0 < (if 1000 ≤ df then ((tb.find? (fun p => p.1 == 1000)).map Prod.snd).getD 0
      else
        match tb.find? (fun p => decide (df ≤ p.1)) with
        | some p => p.2
        | none => ((tb.getLast?).map Prod.snd).getD 0) := by
  split
  · exact hkey
  · rcases hf : tb.find? (fun p => decide (df ≤ p.1)) with _ | p
    · rw [hf]
      exact hlast
    · rw [hf]
      exact hvals p (List.mem_of_find?_eq_some hf)

/-- Every t-value the lookup can return is positive. -/
lemma getTValue_pos (confidenceLevel degreesOfFreedom : ℕ) :
    0 < getTValue confidenceLevel degreesOfFreedom := by
  unfold getTValue
  by_cases h90 : confidenceLevel = 90
  · rw [if_pos h90]
    exact lookup_pos tTable90 degreesOfFreedom tTable90_pos
      (by rw [t90_key]; norm_num) (by rw [t90_last]; norm_num)
  · rw [if_neg h90]
    by_cases h99 : confidenceLevel = 99
    · rw [if_pos h99]
      exact lookup_pos tTable99 degreesOfFreedom tTable99_pos
        (by rw [t99_key]; norm_num) (by rw [t99_last]; norm_num)
    · rw [if_neg h99]
      exact lookup_pos tTable95 degreesOfFreedom tTable95_pos
        (by rw [t95_key]; norm_num) (by rw [t95_last]; norm_num)

noncomputable section

/-- `calculateConfidenceInterval` (README lines 2811-2835): `[0, 0]` for
`n ≤ 1`; otherwise `mean ± t·stdErr`, the lower bound floored at 0. -/
def calculateConfidenceInterval (values : List ℝ) (confidenceLevel : ℕ) :
    ConfidenceInterval :=
  if values.length ≤ 1 then { lower := 0, upper := 0, confidence := confidenceLevel }
  else
    let mean := calculateMean values
    let standardError := calculateStandardError values
    let degreesOfFreedom := values.length - 1
    let tValue := ((getTValue confidenceLevel degreesOfFreedom : ℚ) : ℝ)
    let marginOfError := tValue * standardError
    { lower := max 0 (mean - marginOfError), upper := mean + marginOfError,
      confidence := confidenceLevel }

/-- `calculatePredictiveRange` (README lines 2841-2873): the single value (or
0) for `n ≤ 1`; otherwise `mean ± t·stdDev·sqrt(1 + 1/n)`, the lower bound
floored at 0. -/
def calculatePredictiveRange (values : List ℝ) (confidenceLevel : ℕ) :
    PredictiveRange :=
  if values.length ≤ 1 then
    let singleValue := if values.length = 1 then values.getD 0 0 else 0
    { expectedValue := singleValue, minValue := singleValue, maxValue := singleValue,
      standardError := 0, sampleSize := values.length }
  else
    let mean := calculateMean values
    let standardDeviation := calculateStandardDeviation values
    let standardError := calculateStandardError values
    let degreesOfFreedom := values.length - 1
    let tValue := ((getTValue confidenceLevel degreesOfFreedom : ℚ) : ℝ)
    let predictionError := tValue * standardDeviation * Real.sqrt (1 + 1 / (values.length : ℝ))
    { expectedValue := mean, minValue := max 0 (mean - predictionError),
      maxValue := mean + predictionError, standardError := standardError,
      sampleSize := values.length }

/-- `calculateStatisticalSummary` (README lines 2878-2898). -/
def calculateStatisticalSummary (values : List ℝ) (confidenceLevel : ℕ) :
    StatisticalSummary :=
  { mean := calculateMean values, median := calculateMedian values,
    standardDeviation := calculateStandardDeviation values,
    standardError := calculateStandardError values, sampleSize := values.length,
    confidenceInterval := calculateConfidenceInterval values confidenceLevel,
    predictiveRange := calculatePredictiveRange values confidenceLevel }

/-- `Math.round(x * 10) / 10` (JS rounding of halves toward `+∞`, which is
what Lean's `round` does). -/
def jsRound10 (x : ℝ) : ℝ := ((round (x * 10) : ℤ) : ℝ) / 10

/-- `calculateAccuracyWithConfidence` (README lines 2904-2942): per-pair
accuracy `clamp(0, 100, (1 - |actual - expected| / expected) * 100)`, mean and
confidence interval over the accuracy percentages; mismatched lengths (or
empty input) short-circuit to the neutral record. -/
def calculateAccuracyWithConfidence (actualValues expectedValues : List ℝ)
    (confidenceLevel : ℕ) : AccuracyResult :=
  if actualValues.length ≠ expectedValues.length ∨ actualValues.length = 0 then
    { accuracy := 0,
      confidenceInterval := { lower := 0, upper := 0, confidence := confidenceLevel },
      sampleSize := 0 }
  else
    let accuracyPercentages := (actualValues.zip expectedValues).map (fun p =>
      if p.2 = 0 then 0 else max 0 (min 100 ((1 - |p.1 - p.2| / p.2) * 100)))
    let meanAccuracy := calculateMean accuracyPercentages
    let ci := calculateConfidenceInterval accuracyPercentages confidenceLevel
    { accuracy := jsRound10 meanAccuracy,
      confidenceInterval :=
        { lower := jsRound10 ci.lower, upper := jsRound10 ci.upper,
          confidence := confidenceLevel },
      sampleSize := actualValues.length }

end

/-- The standard deviation is never negative. -/
lemma calculateStandardDeviation_nonneg (values : List ℝ) :
    0 ≤ calculateStandardDeviation values := by
  unfold calculateStandardDeviation
  split
  · exact le_refl 0
  · exact Real.sqrt_nonneg _

/-- C3: for samples of at least 2 (distinct) values and any supported
confidence level, the predictive range contains the confidence interval:
`PR.min ≤ CI.lower` and `CI.upper ≤ PR.max`. -/
theorem predictiveRange_contains_confidenceInterval (values : List ℝ)
    (confidenceLevel : ℕ) (hlen : 2 ≤ values.length)
    (_hdistinct : ∃ a ∈ values, ∃ b ∈ values, a ≠ b)
    (_hc : confidenceLevel = 90 ∨ confidenceLevel = 95 ∨ confidenceLevel = 99) :
    (calculatePredictiveRange values confidenceLevel).minValue ≤
        (calculateConfidenceInterval values confidenceLevel).lower ∧
      (calculateConfidenceInterval values confidenceLevel).upper ≤
        (calculatePredictiveRange values confidenceLevel).maxValue := by
  have hn : ¬ values.length ≤ 1 := by omega
  have hnpos : (0 : ℝ) < (values.length : ℝ) := by
    have : 0 < values.length := by omega
    exact_mod_cast this
  have ht : (0 : ℝ) ≤ ((getTValue confidenceLevel (values.length - 1) : ℚ) : ℝ) := by
    have := getTValue_pos confidenceLevel (values.length - 1)
    have : (0 : ℝ) < ((getTValue confidenceLevel (values.length - 1) : ℚ) : ℝ) := by
      exact_mod_cast this
    exact le_of_lt this
  have hsd : 0 ≤ calculateStandardDeviation values := calculateStandardDeviation_nonneg values
  have hse : calculateStandardError values =
      calculateStandardDeviation values / Real.sqrt (values.length : ℝ) := by
    unfold calculateStandardError
    rw [if_neg hn]
  have hkey : calculateStandardDeviation values / Real.sqrt (values.length : ℝ) ≤
      calculateStandardDeviation values * Real.sqrt (1 + 1 / (values.length : ℝ)) := by
    rw [div_eq_mul_inv, ← Real.sqrt_inv]
    apply mul_le_mul_of_nonneg_left _ hsd
    apply Real.sqrt_le_sqrt
    rw [one_div]
    nlinarith [inv_nonneg.mpr (le_of_lt hnpos)]
  have hme : ((getTValue confidenceLevel (values.length - 1) : ℚ) : ℝ) *
        calculateStandardError values ≤
      ((getTValue confidenceLevel (values.length - 1) : ℚ) : ℝ) *
        calculateStandardDeviation values * Real.sqrt (1 + 1 / (values.length : ℝ)) := by
    rw [hse, mul_assoc]
    exact mul_le_mul_of_nonneg_left hkey ht
  unfold calculatePredictiveRange calculateConfidenceInterval
  rw [if_neg hn, if_neg hn]
  simp only
  constructor
  · exact max_le_max (le_refl 0) (sub_le_sub_left hme (calculateMean values))
  · exact add_le_add_left hme (calculateMean values)

/-- Witness for `predictiveRange_contains_confidenceInterval` on the sample
`[10, 20]` at the 95 % level. -/
theorem predictiveRange_contains_confidenceInterval_witness :
    (calculatePredictiveRange [10, 20] 95).minValue ≤
        (calculateConfidenceInterval [10, 20] 95).lower ∧
      (calculateConfidenceInterval [10, 20] 95).upper ≤
        (calculatePredictiveRange [10, 20] 95).maxValue :=
  predictiveRange_contains_confidenceInterval [10, 20] 95 (by simp)
    ⟨10, by simp, 20, by simp, by norm_num⟩ (Or.inr (Or.inl rfl))

/-- C7 counterexample: summarizing the single-element sample `[10]` gives the
confidence interval `[0, 0]` (the `n ≤ 1` branch returns zeros), not
`[10, 10]` as the claim states. -/
theorem summarize_single_ci_not_the_value :
    (calculateStatisticalSummary [10] 95).confidenceInterval.lower = 0 ∧
      (calculateStatisticalSummary [10] 95).confidenceInterval.upper = 0 ∧
      (calculateStatisticalSummary [10] 95).confidenceInterval.lower ≠ 10 := by
  refine ⟨?_, ?_, ?_⟩ <;>
    norm_num [calculateStatisticalSummary, calculateConfidenceInterval]

/-- C7 amended: `summarize([10])` has standard deviation 0, but its confidence
interval is `[0, 0]` (zeros, not the single value); the predictive range, by
contrast, collapses onto the single value `[10, 10]`. -/
theorem summarize_single_fields :
    (calculateStatisticalSummary [10] 95).standardDeviation = 0 ∧
      (calculateStatisticalSummary [10] 95).confidenceInterval =
        { lower := 0, upper := 0, confidence := 95 } ∧
      (calculateStatisticalSummary [10] 95).predictiveRange =
        { expectedValue := 10, minValue := 10, maxValue := 10, standardError := 0,
          sampleSize := 1 } := by
  refine ⟨?_, ?_, ?_⟩ <;>
    norm_num [calculateStatisticalSummary, calculateStandardDeviation,
      calculateConfidenceInterval, calculatePredictiveRange]

/-- C8 counterexample: mismatched array lengths (`[1, 2]` vs `[1]`) do not
raise or surface any error marker — `calculateAccuracyWithConfidence` returns
the same ordinary neutral numeric record as for empty input, so the caller
cannot distinguish the contract violation from an empty sample. -/
theorem accuracyWithConfidence_mismatch_not_error :
    calculateAccuracyWithConfidence [1, 2] [1] 95 =
        calculateAccuracyWithConfidence [] [] 95 ∧
      (calculateAccuracyWithConfidence [1, 2] [1] 95).accuracy = 0 ∧
      (calculateAccuracyWithConfidence [1, 2] [1] 95).sampleSize = 0 := by
  refine ⟨?_, ?_, ?_⟩ <;> norm_num [calculateAccuracyWithConfidence]

/-- C8 amended: for every pair of input lists of different lengths,
`calculateAccuracyWithConfidence` silently returns the degraded neutral
result (accuracy 0, confidence interval `[0, 0]`, sample size 0) — identical
to the empty-input result — instead of raising or returning an explicit
error (the function is total and has no error channel). -/
theorem accuracyWithConfidence_mismatch_neutral (actualValues expectedValues : List ℝ)
    (confidenceLevel : ℕ) (h : actualValues.length ≠ expectedValues.length) :
    calculateAccuracyWithConfidence actualValues expectedValues confidenceLevel =
        { accuracy := 0,
          confidenceInterval := { lower := 0, upper := 0, confidence := confidenceLevel },
          sampleSize := 0 } ∧
      calculateAccuracyWithConfidence actualValues expectedValues confidenceLevel =
        calculateAccuracyWithConfidence [] [] confidenceLevel := by
  constructor
  · unfold calculateAccuracyWithConfidence
    rw [if_pos (Or.inl h)]
  · unfold calculateAccuracyWithConfidence
    rw [if_pos (Or.inl h)]
    norm_num

/-- Witness for `accuracyWithConfidence_mismatch_neutral` at `[1, 2]` vs
`[1]`. -/
theorem accuracyWithConfidence_mismatch_neutral_witness :
    calculateAccuracyWithConfidence [1, 2] [1] 95 =
        { accuracy := 0, confidenceInterval := { lower := 0, upper := 0, confidence := 95 },
          sampleSize := 0 } ∧
      calculateAccuracyWithConfidence [1, 2] [1] 95 =
        calculateAccuracyWithConfidence [] [] 95 :=
  accuracyWithConfidence_mismatch_neutral [1, 2] [1] 95 (by simp)

/-- Witness for `velocityTrends_accuracy_always_100` on a single completed
issue with estimate 2: the (only) resulting week bucket has planned = actual
and accuracy 100. -/
theorem velocityTrends_accuracy_always_100_witness :
    ((calculateVelocityTrends [demoCompletedIssue "a" 2]).getD 0
          { period := 0, planned := 0, actual := 0, accuracy := 0 }).planned =
        ((calculateVelocityTrends [demoCompletedIssue "a" 2]).getD 0
          { period := 0, planned := 0, actual := 0, accuracy := 0 }).actual ∧
      ((calculateVelocityTrends [demoCompletedIssue "a" 2]).getD 0
          { period := 0, planned := 0, actual := 0, accuracy := 0 }).accuracy = 100 := by
  have hl : calculateVelocityTrends [demoCompletedIssue "a" 2] =
      [{ period := -4, planned := 2, actual := 2, accuracy := 100 }] := by
    norm_num [calculateVelocityTrends, groupByWeek, insertGroup, weekKey, dayIndex,
      dayOfWeek, demoCompletedIssue, msPerDay, jsOrNum, sortByPeriod, insertByPeriod]
  have hmem : (calculateVelocityTrends [demoCompletedIssue "a" 2]).getD 0
      { period := 0, planned := 0, actual := 0, accuracy := 0 } ∈
      calculateVelocityTrends [demoCompletedIssue "a" 2] := by
    rw [hl]
    simp
  exact velocityTrends_accuracy_always_100 [demoCompletedIssue "a" 2]
    (fun issue hi => by
      simp only [List.mem_singleton] at hi
      subst hi
      exact ⟨2, rfl, by norm_num⟩) _ hmem
